import Mathlib

/-!
Verification of the `there` HTTP router (Gebes/there).

The development shallowly embeds the three source files
`handler.go`, `response.go` and `request.go`:

* the Go `http.ResponseWriter` transport is modelled by the state type `RW`
  below, following the documented `net/http` semantics: `Header().Set`
  mutates a header map, `WriteHeader` commits the status code together with
  a snapshot of the header map (a second call is ignored), `Write` appends a
  body chunk after an implicit `WriteHeader 200`, and changing the header
  map after the commit has no effect on the emitted response;
* an `HttpResponse` (`http.Handler`) becomes a state transformer `RW → RW`;
* endpoints and middlewares become functions on requests and responses,
  exactly as the composition loop in `handler.go` consumes them.

External collaborators (the JSON/XML marshallers, `path.Clean`, the route
trie `matcher`) are passed in as parameters or modelled from the spec where
the repository code is not part of the sources; such definitions carry a
`Modelled from the spec:` doc comment.
-/

/-- Str abbreviates Lean's string type; inside the `There` namespace the
name `String` is taken by the response builder of the same name from
`response.go`, so the model refers to the type as `Str`. -/
abbrev Str := String

/-- Model of `net/http`'s `ResponseWriter` as seen by the router:
a mutable header map (`""` means the header is unset, matching Go's
`Header().Get` returning the empty string for absent keys), the committed
status code and the snapshot of the headers taken when the status was
committed, and the list of body chunks written. -/
structure RW where
  headers : Str → Str
  committedStatus : Option Nat
  committedHeaders : Option (Str → Str)
  body : List Str

/-- Fresh response writer: no headers, nothing committed, empty body. -/
def emptyRW : RW := ⟨fun _ => "", none, none, []⟩

/-- Go `rw.Header().Set(k, v)`: replace the value stored for `k`. -/
def hSet (rw : RW) (k v : Str) : RW :=
  { rw with headers := fun x => if x = k then v else rw.headers x }

/-- Go `rw.WriteHeader(code)`: on the first call, commit the status code and
snapshot the current header map; later calls are ignored. -/
def writeHeader (rw : RW) (code : Nat) : RW :=
  match rw.committedStatus with
  | some _ => rw
  | none =>
    { rw with committedStatus := some code, committedHeaders := some rw.headers }

/-- Go `rw.Write(data)`: an implicit `WriteHeader 200` if nothing was
committed yet, then append the chunk to the body. -/
def write (rw : RW) (data : Str) : RW :=
  let rw1 := writeHeader rw 200
  { rw1 with body := rw1.body ++ [data] }

/-- Header value of the emitted response: the snapshot taken at commit time
(headers set after `WriteHeader` never reach the wire). -/
def emittedHeader (rw : RW) (k : Str) : Str :=
  match rw.committedHeaders with
  | some h => h k
  | none => ""

namespace There

/-- Go type `MapString = map[string]string`, iterated in list order. -/
def MapString := List (Str × Str)

/-- `HttpResponse` is `http.Handler`: its `ServeHTTP` action on the writer. -/
def HttpResponse := RW → RW

/-- Go constant `ResponseHeaderContentType`. Modelled from the spec: the
constants file is not among the sources; the spec fixes the content types
as text / `application/json` / `application/xml`. -/
def ResponseHeaderContentType : Str := "Content-Type"

/-- Go constant `ContentTypeTextPlain` (see `ResponseHeaderContentType`). -/
def ContentTypeTextPlain : Str := "text/plain"

/-- Go constant `ContentTypeApplicationJson`. -/
def ContentTypeApplicationJson : Str := "application/json"

/-- Go constant `ContentTypeApplicationXml`. -/
def ContentTypeApplicationXml : Str := "application/xml"

/-- Go constant `StatusInternalServerError = 500`. -/
def StatusInternalServerError : Nat := 500

/-- `bytesResponse.ServeHTTP`: `rw.Write(j.data)`. -/
def bytesResponse (data : Str) : HttpResponse := fun rw => write rw data

/-- `statusResponse.ServeHTTP`: `rw.WriteHeader(j.code)`, then the nested
response if it is not nil. -/
def statusResponse (code : Nat) (response : Option HttpResponse) : HttpResponse :=
  fun rw =>
    let rw1 := writeHeader rw code
    match response with
    | some r => r rw1
    | none => rw1

/-- `Status` renders only the status code. -/
def Status (code : Nat) : HttpResponse := statusResponse code none

/-- `StatusWithResponse` writes the status code and renders the response. -/
def StatusWithResponse (code : Nat) (response : HttpResponse) : HttpResponse :=
  statusResponse code (some response)

/-- `Bytes` takes a status code and a body chunk to render. -/
def Bytes (code : Nat) (data : Str) : HttpResponse :=
  StatusWithResponse code (bytesResponse data)

/-- Header loop of `headerResponse.ServeHTTP`: for each pair, set the header
only when `rw.Header().Get(key)` is still empty. -/
def applyHeaders (headers : MapString) (rw : RW) : RW :=
  headers.foldl
    (fun rw kv =>
      if (rw.headers kv.1).length == 0 then hSet rw kv.1 kv.2 else rw)
    rw

/-- `headerResponse.ServeHTTP`: run the header loop, then the nested
response if it is not nil. -/
def headerResponse (headers : MapString) (response : Option HttpResponse) : HttpResponse :=
  fun rw =>
    let rw1 := applyHeaders headers rw
    match response with
    | some r => r rw1
    | none => rw1

/-- `WithHeaders` writes the given headers and the response. -/
def WithHeaders (headers : MapString) (response : HttpResponse) : HttpResponse :=
  headerResponse headers (some response)

/-- `stringResponse.ServeHTTP`: `WriteHeader(code)`, then
`Header().Set(ContentType, text/plain)`, then `Write(data)` — in exactly
this order, as in the source. -/
def stringResponse (code : Nat) (data : Str) : HttpResponse :=
  fun rw => write (hSet (writeHeader rw code) ResponseHeaderContentType ContentTypeTextPlain) data

/-- `String` takes a status code and renders the plain string. -/
def String (code : Nat) (data : Str) : HttpResponse := stringResponse code data

/-- Go constant `jsonLeft`. -/
def jsonLeft : Str := "\x7b\"error\":\""

/-- Go constant `jsonRight`. -/
def jsonRight : Str := "\"\x7d"

/-- Byte loop of `Error`, iterating the characters of the message: when the
current one is `'"'` the builder does `b.WriteString("\"")` — which appends
the very same quote character — otherwise `b.WriteByte(e[i])`. -/
def errorEscape (e : Str) : Str :=
  e.data.foldl (fun b c => if c = '"' then b.push '"' else b.push c) ""

/-- `jsonResponse.ServeHTTP`: `WriteHeader(code)`, then
`Header().Set(ContentType, application/json)`, then `Write(data)`. -/
def jsonResponse (code : Nat) (data : Str) : HttpResponse :=
  fun rw => write (hSet (writeHeader rw code) ResponseHeaderContentType ContentTypeApplicationJson) data

/-- `Error` takes a status code and an error; `err` is embedded by its
message string. -/
def Error (code : Nat) (err : Str) : HttpResponse :=
  jsonResponse code (jsonLeft ++ errorEscape err ++ jsonRight)

/-- `Json` takes a status code and data marshalled to JSON. `json.Marshal`
is an external collaborator, so `Json` receives its result: either the
marshalled bytes or the marshalling error message. -/
def Json (code : Nat) (marshalled : Except Str Str) : HttpResponse :=
  match marshalled with
  | Except.error e => Error StatusInternalServerError ("json marshall: " ++ e)
  | Except.ok jsonData => jsonResponse code jsonData

/-- `Message` takes a status code and a message. -/
def Message (code : Nat) (message : Str) : HttpResponse :=
  jsonResponse code message

/-- `xmlResponse.ServeHTTP`: `WriteHeader(code)`, then
`Header().Set(ContentType, application/xml)`, then `Write(data)`. -/
def xmlResponse (code : Nat) (data : Str) : HttpResponse :=
  fun rw => write (hSet (writeHeader rw code) ResponseHeaderContentType ContentTypeApplicationXml) data

/-- `Xml` takes a status code and data marshalled to XML; as with `Json`,
the external `xml.Marshal` is represented by its result. -/
def Xml (code : Nat) (marshalled : Except Str Str) : HttpResponse :=
  match marshalled with
  | Except.error e => Error StatusInternalServerError ("xml marshall: " ++ e)
  | Except.ok xmlData => xmlResponse code xmlData

/-- `BasicReader` reads http params: Go `map[string][]string`, modelled as
an association list with unique keys looked up by first match. -/
def BasicReader := List (Str × List Str)

/-- `BasicReader.GetSlice`: Go returns `(nil, false)` when the key is absent
or its list is empty, `(list, true)` otherwise. -/
def BasicReader.GetSlice (reader : BasicReader) (key : Str) : List Str × Bool :=
  match reader.find? (fun p => p.1 == key) with
  | none => ([], false)
  | some p => if p.2.length == 0 then ([], false) else (p.2, true)

/-- `BasicReader.Has`. -/
def BasicReader.Has (reader : BasicReader) (key : Str) : Bool :=
  (reader.GetSlice key).2

/-- `BasicReader.Get`: looks up the slice and returns its first element; the
Go index expression `list[0]` is rendered as `headD ""` (the safety claim
below shows the list is never empty when it is reached). -/
def BasicReader.Get (reader : BasicReader) (key : Str) : Str × Bool :=
  match reader.GetSlice key with
  | (_, false) => ("", false)
  | (list, true) => (list.headD "", true)

/-- `BasicReader.GetDefault`. -/
def BasicReader.GetDefault (reader : BasicReader) (key defaultValue : Str) : Str :=
  match reader.Get key with
  | (_, false) => defaultValue
  | (s, true) => s

/-- `RouteParamReader` reads dynamic route params: Go `map[string]string`. -/
def RouteParamReader := MapString

/-- `RouteParamReader.Get`: Go `v, ok := reader[key]` (zero value on miss). -/
def RouteParamReader.Get (reader : RouteParamReader) (key : Str) : Str × Bool :=
  match reader.find? (fun p => p.1 == key) with
  | none => ("", false)
  | some p => (p.2, true)

/-- `RouteParamReader.Has`. -/
def RouteParamReader.Has (reader : RouteParamReader) (key : Str) : Bool :=
  (reader.Get key).2

/-- `RouteParamReader.GetDefault`. -/
def RouteParamReader.GetDefault (reader : RouteParamReader) (key defaultValue : Str) : Str :=
  match reader.Get key with
  | (_, false) => defaultValue
  | (s, true) => s

/-- Model of Go's `*http.Request` as the router consumes it: the method, the
URL path, and the parsed query and header maps. The body is an I/O handle
(external collaborator) and is not modelled. -/
structure Request where
  method : Str
  urlPath : Str
  query : BasicReader
  headerMap : BasicReader

/-- `HttpRequest` from `request.go`; `Body` is an I/O handle and is left
out. `RouteParams` is a pointer to a `RouteParamReader` in Go; writing
through the pointer becomes a functional field update. -/
structure HttpRequest where
  method : Str
  urlPath : Str
  params : BasicReader
  headers : BasicReader
  routeParams : RouteParamReader

/-- `NewHttpRequest`: the route-param reader starts out empty. -/
def NewHttpRequest (request : Request) : HttpRequest :=
  { method := request.method
    urlPath := request.urlPath
    params := request.query
    headers := request.headerMap
    routeParams := ([] : MapString) }

/-- `Endpoint`: given the request, produce a Response (spec section 3). -/
def Endpoint := HttpRequest → HttpResponse

/-- `Middleware`: given the request and the downstream handler `next`,
produce a handler (spec section 3). -/
def Middleware := HttpRequest → HttpResponse → HttpResponse

/-- Modelled from the spec: the fixed set of supported HTTP methods of the
route table (`methodToInt` and the method list are not among the sources;
spec section 4.2 lists GET, POST, PUT, PATCH, DELETE, HEAD, OPTIONS). -/
inductive KnownMethod where
  | get | post | put | patch | delete | head | options
deriving DecidableEq

/-- Modelled from the spec: `methodToInt` maps a method string to its index
in the fixed method table, and an unrecognized string to a sentinel
"unsupported" index whose slot holds no endpoint; the sentinel is rendered
as `none`. -/
def methodToInt (s : Str) : Option KnownMethod :=
  if s = "GET" then some KnownMethod.get
  else if s = "POST" then some KnownMethod.post
  else if s = "PUT" then some KnownMethod.put
  else if s = "PATCH" then some KnownMethod.patch
  else if s = "DELETE" then some KnownMethod.delete
  else if s = "HEAD" then some KnownMethod.head
  else if s = "OPTIONS" then some KnownMethod.options
  else none

/-- Modelled from the spec: the per-node route table (spec section 3) — one
optional endpoint and one middleware sequence per supported method; the
sentinel "unsupported" slot is always absent, since registration only
accepts supported methods. The trie children are not needed here: the
dispatcher consumes the node only through these two tables. -/
structure Node where
  handler : KnownMethod → Option Endpoint
  middlewares : KnownMethod → List Middleware

/-- `RouterConfiguration`: the fields `ServeHTTP` reads. -/
structure RouterConfiguration where
  sanitizePaths : Bool
  routeNotFoundHandler : Endpoint

/-- `Router`: configuration, global middlewares, and the matcher. The trie
implementation is not among the sources, so `matcher` is the resolution
function itself: `findNode` returning the optional node and the extracted
parameter bindings. -/
structure Router where
  configuration : RouterConfiguration
  globalMiddlewares : List Middleware
  matcher : Str → Option Node × MapString

/-- Endpoint selection of `ServeHTTP` (`handler.go` lines 20 to 29): when a
node was found, `endpoint = node.handler[method]`; when the endpoint is
still nil afterwards, fall back to `RouteNotFoundHandler`. -/
def selectEndpoint (router : Router) (node : Option Node) (method : Option KnownMethod) : Endpoint :=
  let endpointOpt : Option Endpoint :=
    match node, method with
    | some n, some m => n.handler m
    | _, _ => none
  endpointOpt.getD router.configuration.routeNotFoundHandler

/-- Middleware selection of `ServeHTTP` (`handler.go` lines 23 to 26):
`middlewares = node.middlewares[method]` when a node was found, the empty
sequence otherwise (and at the sentinel slot). -/
def selectMiddlewares (node : Option Node) (method : Option KnownMethod) : List Middleware :=
  match node, method with
  | some n, some m => n.middlewares m
  | _, _ => []

/-- Composition loop of `ServeHTTP` (`handler.go` lines 31 to 42): start
from the terminal handler running the endpoint, fold the route-local
middlewares from the last index down to 0, then the global middlewares the
same way. -/
def composePipeline (globals locals : List Middleware) (req : HttpRequest) (endpoint : Endpoint) : HttpResponse :=
  let base : HttpResponse := fun rw => endpoint req rw
  let next1 := locals.foldr (fun m acc => m req acc) base
  globals.foldr (fun m acc => m req acc) next1

/-- `Router.ServeHTTP` from `handler.go`. `pathClean` stands for the
external `path.Clean` of the Go standard library. The Go statement
`*httpRequest.RouteParams = params` becomes the field update producing
`httpRequest`, performed before the pipeline is composed and run. -/
def ServeHTTP (router : Router) (pathClean : Str → Str) (request : Request) (rw : RW) : RW :=
  let httpRequest0 := NewHttpRequest request
  let method := methodToInt request.method
  let sanitizedPath :=
    if router.configuration.sanitizePaths then pathClean request.urlPath
    else request.urlPath
  let found := router.matcher sanitizedPath
  let httpRequest := { httpRequest0 with routeParams := found.2 }
  let endpoint := selectEndpoint router found.1 method
  let middlewares := selectMiddlewares found.1 method
  composePipeline router.globalMiddlewares middlewares httpRequest endpoint rw

/-- One middleware layer of the composition loop, as a reusable function:
`foldr` over the list applies the layers from the last index down to 0,
exactly like the two `for` loops of `ServeHTTP`. -/
def chainFold (mids : List Middleware) (req : HttpRequest) (base : HttpResponse) : HttpResponse :=
  mids.foldr (fun m acc => m req acc) base

/-- Instrumentation: a middleware that logs its name on entry and then
invokes its downstream handler unchanged. -/
def logMid (name : Str) : Middleware :=
  fun _ next => fun rw => next (write rw name)

/-- Instrumentation: an endpoint that logs its name. -/
def logEndpoint (name : Str) : Endpoint :=
  fun _ => fun rw => write rw name

/-- Rendering of a route-param map as a single string, used to observe which
bindings a middleware sees in the request state. -/
def renderParams (params : MapString) : Str :=
  params.foldl (fun acc kv => acc ++ kv.1 ++ "=" ++ kv.2 ++ ";") ""

/-- Instrumentation: a middleware that logs the route-param bindings it
observes through the request state, then continues downstream. -/
def obsMid : Middleware :=
  fun req next => fun rw => next (write rw (renderParams req.routeParams))

/-- Instrumentation: an endpoint that logs the route-param bindings it
observes through the request state. -/
def obsEndpoint : Endpoint :=
  fun req => fun rw => write rw (renderParams req.routeParams)

/-- Instrumentation: the response of a short-circuiting middleware. -/
def haltResponse : HttpResponse := fun rw => write rw "halt"

/-- Instrumentation: a middleware that never calls `next` and answers with
`haltResponse` instead. -/
def scMid : Middleware := fun _ _ => haltResponse

/-- Instrumentation: a middleware that calls `next` and then appends its own
chunk to the response. -/
def wrapMid : Middleware :=
  fun _ next => fun rw => write (next rw) "after"

/-- Instrumentation: a sample request value. -/
def reqSample : HttpRequest :=
  { method := "GET", urlPath := "/", params := [], headers := [], routeParams := [] }

/-- Instrumentation: a response whose own rendering sets header `k` to `v`
and then writes its body. -/
def setOwnHeader (k v : Str) : HttpResponse :=
  fun rw => write (hSet rw k v) "inner"

end There

/-! Helper lemmas about the response-writer model. -/

theorem writeHeader_body (rw : RW) (c : Nat) : (writeHeader rw c).body = rw.body := by
  cases h : rw.committedStatus <;> simp [writeHeader, h]

theorem writeHeader_headers (rw : RW) (c : Nat) : (writeHeader rw c).headers = rw.headers := by
  cases h : rw.committedStatus <;> simp [writeHeader, h]

theorem write_body (rw : RW) (s : Str) : (write rw s).body = rw.body ++ [s] := by
  simp [write, writeHeader_body]

theorem write_headers (rw : RW) (s : Str) : (write rw s).headers = rw.headers := by
  simp [write, writeHeader_headers]

theorem hSet_committedStatus (rw : RW) (k v : Str) :
    (hSet rw k v).committedStatus = rw.committedStatus := rfl

theorem foldl_write_body (names : List Str) :
    ∀ rw : RW, (List.foldl write rw names).body = rw.body ++ names := by
  induction names with
  | nil => intro rw; simp
  | cons n rest ih =>
    intro rw
    rw [List.foldl_cons, ih]
    simp [write_body]

theorem logChain (names : List Str) (req : There.HttpRequest)
    (base : There.HttpResponse) (rw : RW) :
    There.chainFold (List.map There.logMid names) req base rw
      = base (List.foldl write rw names) := by
  induction names generalizing rw with
  | nil => rfl
  | cons n rest ih =>
    show There.chainFold (List.map There.logMid rest) req base (write rw n)
      = base (List.foldl write rw (n :: rest))
    rw [List.foldl_cons]
    exact ih (write rw n)

theorem obsChain (n : Nat) (req : There.HttpRequest)
    (base : There.HttpResponse) :
    ∀ rw : RW, There.chainFold (List.replicate n There.obsMid) req base rw
      = base (List.foldl write rw
          (List.replicate n (There.renderParams req.routeParams))) := by
  induction n with
  | zero => intro rw; rfl
  | succ k ih =>
    intro rw
    rw [List.replicate_succ]
    show There.chainFold (List.replicate k There.obsMid) req base
        (write rw (There.renderParams req.routeParams))
      = base (List.foldl write rw
          (There.renderParams req.routeParams
            :: List.replicate k (There.renderParams req.routeParams)))
    rw [List.foldl_cons]
    exact ih (write rw (There.renderParams req.routeParams))

theorem chainFold_append (l1 l2 : List There.Middleware)
    (req : There.HttpRequest) (base : There.HttpResponse) :
    There.chainFold (l1 ++ l2) req base
      = There.chainFold l1 req (There.chainFold l2 req base) := by
  simp [There.chainFold, List.foldr_append]

theorem passthrough_chain (mids : List There.Middleware) (req : There.HttpRequest)
    (base : There.HttpResponse)
    (hp : ∀ m ∈ mids, ∀ r nxt, m r nxt = nxt) :
    There.chainFold mids req base = base := by
  induction mids with
  | nil => rfl
  | cons p rest ih =>
    show p req (There.chainFold rest req base) = base
    rw [hp p (List.mem_cons_self p rest)]
    exact ih (fun m hm => hp m (List.mem_cons_of_mem p hm))

/-- Claim C1: a request dispatched through the composed pipeline with global
middlewares named `gs` and route-local middlewares named `ls`, each logging
on entry, produces exactly the entry trace `gs`, then `ls`, then the
endpoint: globals in order first, then locals in order, endpoint last
(innermost). -/
theorem middleware_entry_order (gs ls : List Str) (params : There.MapString)
    (path : Str) (notFound : There.Endpoint) (pathClean : Str → Str)
    (q hdrs : There.BasicReader) (rw : RW) :
    (There.ServeHTTP
      ⟨⟨false, notFound⟩, List.map There.logMid gs,
        fun _ => (some ⟨fun _ => some (There.logEndpoint "endpoint"),
                        fun _ => List.map There.logMid ls⟩, params)⟩
      pathClean ⟨"GET", path, q, hdrs⟩ rw).body
      = rw.body ++ gs ++ ls ++ ["endpoint"] := by
  have step :
      (There.ServeHTTP
        ⟨⟨false, notFound⟩, List.map There.logMid gs,
          fun _ => (some ⟨fun _ => some (There.logEndpoint "endpoint"),
                          fun _ => List.map There.logMid ls⟩, params)⟩
        pathClean ⟨"GET", path, q, hdrs⟩ rw)
      = There.chainFold (List.map There.logMid gs)
          ⟨"GET", path, q, hdrs, params⟩
          (There.chainFold (List.map There.logMid ls)
            ⟨"GET", path, q, hdrs, params⟩
            (fun rw2 => There.logEndpoint "endpoint" ⟨"GET", path, q, hdrs, params⟩ rw2)) rw := rfl
  rw [step, logChain, logChain]
  show (write (List.foldl write (List.foldl write rw gs) ls) "endpoint").body
    = rw.body ++ gs ++ ls ++ ["endpoint"]
  rw [write_body, foldl_write_body, foldl_write_body]

/-- Claim C8: the bindings returned by path resolution are written into the
request-scoped route-param state before any middleware runs: with `n`
global middlewares, `m` route-local middlewares and the endpoint all
logging the bindings they observe through the request state, every one of
the `n + m + 1` observations is exactly the resolved `params` — regardless
of path sanitization and of the incoming path. -/
theorem route_params_before_middlewares (n m : Nat) (params : There.MapString)
    (path : Str) (notFound : There.Endpoint) (pathClean : Str → Str)
    (sp : Bool) (q hdrs : There.BasicReader) (rw : RW) :
    (There.ServeHTTP
      ⟨⟨sp, notFound⟩, List.replicate n There.obsMid,
        fun _ => (some ⟨fun _ => some There.obsEndpoint,
                        fun _ => List.replicate m There.obsMid⟩, params)⟩
      pathClean ⟨"GET", path, q, hdrs⟩ rw).body
      = rw.body ++ List.replicate n (There.renderParams params)
          ++ List.replicate m (There.renderParams params)
          ++ [There.renderParams params] := by
  have step :
      (There.ServeHTTP
        ⟨⟨sp, notFound⟩, List.replicate n There.obsMid,
          fun _ => (some ⟨fun _ => some There.obsEndpoint,
                          fun _ => List.replicate m There.obsMid⟩, params)⟩
        pathClean ⟨"GET", path, q, hdrs⟩ rw)
      = There.chainFold (List.replicate n There.obsMid)
          ⟨"GET", path, q, hdrs, params⟩
          (There.chainFold (List.replicate m There.obsMid)
            ⟨"GET", path, q, hdrs, params⟩
            (fun rw2 => There.obsEndpoint ⟨"GET", path, q, hdrs, params⟩ rw2)) rw := by
    cases sp <;> rfl
  rw [step, obsChain, obsChain]
  show (write (List.foldl write (List.foldl write rw
      (List.replicate n (There.renderParams params)))
      (List.replicate m (There.renderParams params)))
      (There.renderParams params)).body = _
  rw [write_body, foldl_write_body, foldl_write_body]

/-- Claim C2: whenever path resolution returns no node, or a node is found
but no endpoint is registered for the request's method (including the
sentinel index of an unrecognized method string), the dispatcher selects
the configured not-found endpoint; and the selected endpoint is always
either the not-found endpoint or an endpoint registered at the node — never
absent. -/
theorem not_found_fallback (router : There.Router) (node : Option There.Node)
    (method : Option There.KnownMethod) :
    ((node = none ∨ method = none ∨
        (∃ n m, node = some n ∧ method = some m ∧ n.handler m = none)) →
      There.selectEndpoint router node method
        = router.configuration.routeNotFoundHandler) ∧
    (There.selectEndpoint router node method
        = router.configuration.routeNotFoundHandler ∨
      ∃ n m e, node = some n ∧ method = some m ∧ n.handler m = some e ∧
        There.selectEndpoint router node method = e) := by
  constructor
  · intro hmiss
    rcases node with _ | n
    · rfl
    rcases method with _ | m
    · rfl
    rcases hmiss with h | h | ⟨n2, m2, hn, hm, hnone⟩
    · exact absurd h (by simp)
    · exact absurd h (by simp)
    · cases Option.some.inj hn
      cases Option.some.inj hm
      simp [There.selectEndpoint, hnone]
  · rcases node with _ | n
    · exact Or.inl rfl
    rcases method with _ | m
    · exact Or.inl rfl
    rcases he : n.handler m with _ | e
    · exact Or.inl (by simp [There.selectEndpoint, he])
    · exact Or.inr ⟨n, m, e, rfl, rfl, he, by simp [There.selectEndpoint, he]⟩

/-- Claim C2 witness: a concrete router and an unrecognized method string
("TRACE" is not in the method table) select the not-found endpoint. -/
theorem not_found_fallback_witness :
    There.selectEndpoint
      ⟨⟨false, There.logEndpoint "404"⟩, [], fun _ => (none, [])⟩
      none (There.methodToInt "TRACE")
      = (⟨⟨false, There.logEndpoint "404"⟩, [], fun _ => (none, [])⟩ :
          There.Router).configuration.routeNotFoundHandler :=
  (not_found_fallback _ none (There.methodToInt "TRACE")).1 (Or.inl rfl)

/-- Claim C3 counterexample: the claim as stated — the pipeline's response
is exactly the response of the short-circuiting middleware — fails when a
middleware outside it transforms the response: with global middleware
`wrapMid` (which appends a chunk after `next` returns) and a route-local
middleware that never calls `next` and answers `haltResponse`, the pipeline
body is not the body `haltResponse` produces. -/
theorem short_circuit_counterexample :
    (There.composePipeline [There.wrapMid] [There.scMid] There.reqSample
        (There.logEndpoint "endpoint") emptyRW).body
      ≠ (There.haltResponse emptyRW).body := by
  decide

/-- Claim C3 (amended): if the middleware chain splits as
`pre ++ mid :: post` with `mid` never calling its downstream handler and
answering `r0`, then the endpoint is never executed — the pipeline result
does not depend on the endpoint at all — and the pipeline response is `r0`
wrapped by the middlewares outside `mid`; in particular it is exactly `r0`
whenever all outer middlewares pass the downstream handler through
unchanged. -/
theorem short_circuit_skips_endpoint (gs ls pre post : List There.Middleware)
    (mid : There.Middleware) (r0 : There.HttpResponse)
    (req : There.HttpRequest) (e e2 : There.Endpoint) (rw : RW)
    (hsplit : gs ++ ls = pre ++ mid :: post)
    (hmid : ∀ nxt, mid req nxt = r0) :
    There.composePipeline gs ls req e rw = There.composePipeline gs ls req e2 rw ∧
    ((∀ m ∈ pre, ∀ r nxt, m r nxt = nxt) →
      There.composePipeline gs ls req e rw = r0 rw) := by
  have key : ∀ ep : There.Endpoint,
      There.composePipeline gs ls req ep = There.chainFold pre req r0 := by
    intro ep
    have h1 : There.composePipeline gs ls req ep
        = There.chainFold (gs ++ ls) req (fun rw2 => ep req rw2) :=
      (chainFold_append gs ls req (fun rw2 => ep req rw2)).symm
    rw [h1, hsplit, chainFold_append pre (mid :: post) req (fun rw2 => ep req rw2)]
    have h2 : There.chainFold (mid :: post) req (fun rw2 => ep req rw2) = r0 :=
      hmid (There.chainFold post req (fun rw2 => ep req rw2))
    rw [h2]
  constructor
  · rw [key e, key e2]
  · intro hp
    rw [key e, passthrough_chain pre req r0 hp]

/-- Claim C3 witness: with no outer middleware and the route-local
short-circuiting middleware, the pipeline result is exactly the
middleware's response and does not depend on the endpoint. -/
theorem short_circuit_skips_endpoint_witness :
    There.composePipeline [] [There.scMid] There.reqSample
        (There.logEndpoint "a") emptyRW
      = There.haltResponse emptyRW :=
  (short_circuit_skips_endpoint [] [There.scMid] [] [] There.scMid
      There.haltResponse There.reqSample (There.logEndpoint "a")
      (There.logEndpoint "b") emptyRW rfl (fun _ => rfl)).2
    (fun m hm => absurd hm (List.not_mem_nil m))

theorem str_of_length_eq_zero (s : Str) (h : s.length = 0) : s = "" := by
  obtain ⟨d⟩ := s
  cases d with
  | nil => rfl
  | cons c cs => simp [String.length] at h

theorem escape_step (acc : Str) (c : Char) :
    (if c = '"' then acc.push '"' else acc.push c) = ⟨acc.data ++ [c]⟩ := by
  by_cases h : c = '"'
  · subst h; simp [String.push]
  · simp [h, String.push]

theorem escape_list (l : List Char) :
    ∀ acc : Str,
      l.foldl (fun b c => if c = '"' then b.push '"' else b.push c) acc
        = ⟨acc.data ++ l⟩ := by
  induction l with
  | nil => intro acc; simp
  | cons c cs ih =>
    intro acc
    rw [List.foldl_cons, escape_step, ih]
    simp

/-- Quote handling of `Error` is the identity: detecting `'"'` and emitting
`"\""` appends the very same character, so nothing is ever escaped. -/
theorem errorEscape_id (e : Str) : There.errorEscape e = e := by
  obtain ⟨d⟩ := e
  show d.foldl (fun b c => if c = '"' then b.push '"' else b.push c) "" = ⟨d⟩
  rw [escape_list]
  rfl

/-- Claim C4: the quote-escaping of `Error` does nothing — `errorEscape` is
the identity on every message — so for the message `a"b` the emitted body
is the literal text of the message between the fixed JSON delimiters, with
the embedded quote unescaped, and not the body the claim describes. -/
theorem error_quote_not_escaped :
    (∀ e : Str, There.errorEscape e = e) ∧
    ((There.Error 500 "a\"b") emptyRW).body = ["\x7b\"error\":\"a\"b\"\x7d"] ∧
    ((There.Error 500 "a\"b") emptyRW).body ≠ ["\x7b\"error\":\"a\\\"b\"\x7d"] := by
  refine ⟨errorEscape_id, by decide, by decide⟩

theorem applyHeaders_preserves (hs : There.MapString) :
    ∀ (rw : RW) (k : Str), rw.headers k ≠ "" →
      (There.applyHeaders hs rw).headers k = rw.headers k := by
  induction hs with
  | nil => intro rw k _; rfl
  | cons kv rest ih =>
    intro rw k hk
    show (There.applyHeaders rest
        (if (rw.headers kv.1).length == 0 then hSet rw kv.1 kv.2 else rw)).headers k
      = rw.headers k
    by_cases hc : ((rw.headers kv.1).length == 0) = true
    · have hne : k ≠ kv.1 := by
        intro he
        have hlen : (rw.headers kv.1).length = 0 := by simpa using hc
        exact hk (he ▸ str_of_length_eq_zero _ hlen)
      have hset : (hSet rw kv.1 kv.2).headers k = rw.headers k := by
        simp [hSet, hne]
      rw [if_pos hc, ih _ k (by rw [hset]; exact hk), hset]
    · rw [if_neg hc]
      exact ih rw k hk

/-- Claim C5: the `WithHeaders` wrapper is first-write-wins applied
outside-in — the header loop never changes a key that already holds a
non-empty value, and `WithHeaders` with `X = 1` around a response whose own
rendering sets `X` to `v` leaves the final `X` header at `v`: the wrapper
does not overwrite a value set by the inner layer. -/
theorem withHeaders_first_write_wins (hs : There.MapString) (k : Str)
    (rw : RW) (v : Str) :
    (rw.headers k ≠ "" →
      (There.applyHeaders hs rw).headers k = rw.headers k) ∧
    ((There.WithHeaders [("X", "1")] (There.setOwnHeader "X" v)) rw).headers "X"
      = v := by
  constructor
  · exact applyHeaders_preserves hs rw k
  · show (write (hSet (There.applyHeaders [("X", "1")] rw) "X" v) "inner").headers "X" = v
    rw [write_headers]
    simp [hSet]

/-- Claim C5 witness: on a writer whose `X` header is already `2`, the
wrapper loop for `X = 1` leaves `X` at `2`. -/
theorem withHeaders_first_write_wins_witness :
    (There.applyHeaders [("X", "1")] (hSet emptyRW "X" "2")).headers "X"
      = (hSet emptyRW "X" "2").headers "X" :=
  (withHeaders_first_write_wins [("X", "1")] "X" (hSet emptyRW "X" "2") "z").1
    (by decide)

/-- Claim C6: each rendering calls `Header().Set(Content-Type, …)` only
after `WriteHeader`, so the header map ends up holding the advertised
content type, but the committed snapshot — what the transport emits — never
contains it: the content type does not take effect on the emitted
response. -/
theorem content_type_set_after_commit (code : Nat) (data : Str) :
    emittedHeader (There.String code data emptyRW) "Content-Type" = "" ∧
    (There.String code data emptyRW).headers "Content-Type" = "text/plain" ∧
    emittedHeader (There.jsonResponse code data emptyRW) "Content-Type" = "" ∧
    (There.jsonResponse code data emptyRW).headers "Content-Type"
      = "application/json" ∧
    emittedHeader (There.xmlResponse code data emptyRW) "Content-Type" = "" ∧
    (There.xmlResponse code data emptyRW).headers "Content-Type"
      = "application/xml" :=
  ⟨rfl, rfl, rfl, rfl, rfl, rfl⟩

/-- Claim C7: a marshalling failure inside `Json` or `Xml` is converted
locally into the `Error` response for status 500 carrying the prefixed
message, and rendering it on an uncommitted writer commits status 500 —
the request still completes with a response. -/
theorem marshal_failure_yields_500 (code : Nat) (e : Str) :
    There.Json code (Except.error e)
      = There.Error There.StatusInternalServerError ("json marshall: " ++ e) ∧
    There.Xml code (Except.error e)
      = There.Error There.StatusInternalServerError ("xml marshall: " ++ e) ∧
    (∀ rw : RW, rw.committedStatus = none →
      ((There.Json code (Except.error e)) rw).committedStatus = some 500 ∧
      ((There.Xml code (Except.error e)) rw).committedStatus = some 500) := by
  refine ⟨rfl, rfl, fun rw h => ⟨?_, ?_⟩⟩ <;>
    simp [There.Json, There.Xml, There.Error, There.jsonResponse,
      There.xmlResponse, There.StatusInternalServerError, write, writeHeader,
      hSet_committedStatus, h]

/-- Claim C7 witness: a concrete failed marshal renders with status 500. -/
theorem marshal_failure_yields_500_witness :
    (There.Json 200 (Except.error "boom") emptyRW).committedStatus = some 500 :=
  ((marshal_failure_yields_500 200 "boom").2.2 emptyRW rfl).1

/-- Claim C9: `BasicReader.Get` returns the first value with `true` exactly
when the key maps to a non-empty value list, returns `("", false)` both
when the key is absent and when its value list is empty, and `GetSlice`
never reports `true` with an empty list — so the `list[0]` access at the
public surface is total and safe. -/
theorem basicReader_get_total (reader : There.BasicReader) (key : Str) :
    ((There.BasicReader.GetSlice reader key).2 = true →
      (There.BasicReader.GetSlice reader key).1 ≠ []) ∧
    (List.find? (fun q => q.1 == key) reader = none →
      There.BasicReader.Get reader key = ("", false)) ∧
    (∀ p, List.find? (fun q => q.1 == key) reader = some p → p.2 = [] →
      There.BasicReader.Get reader key = ("", false)) ∧
    (∀ p v vs, List.find? (fun q => q.1 == key) reader = some p →
      p.2 = v :: vs → There.BasicReader.Get reader key = (v, true)) := by
  refine ⟨?_, ?_, ?_, ?_⟩
  · intro hok
    rcases hf : List.find? (fun q => q.1 == key) reader with _ | p
    · simp [There.BasicReader.GetSlice, hf] at hok
    · rcases hl : p.2 with _ | ⟨v, vs⟩
      · simp [There.BasicReader.GetSlice, hf, hl] at hok
      · simp [There.BasicReader.GetSlice, hf, hl]
  · intro hf
    simp [There.BasicReader.Get, There.BasicReader.GetSlice, hf]
  · intro p hf hl
    simp [There.BasicReader.Get, There.BasicReader.GetSlice, hf, hl]
  · intro p v vs hf hl
    simp [There.BasicReader.Get, There.BasicReader.GetSlice, hf, hl]

/-- Claim C9 witness: on a concrete reader, a key bound to a non-empty list
yields its first value with `true`, an absent key yields `("", false)`, and
a key bound to an empty list yields `("", false)`. -/
theorem basicReader_get_total_witness :
    There.BasicReader.Get [("a", ["x", "y"]), ("b", [])] "a" = ("x", true) ∧
    There.BasicReader.Get [("a", ["x", "y"]), ("b", [])] "c" = ("", false) ∧
    There.BasicReader.Get [("a", ["x", "y"]), ("b", [])] "b" = ("", false) :=
  ⟨(basicReader_get_total [("a", ["x", "y"]), ("b", [])] "a").2.2.2
      ("a", ["x", "y"]) "x" ["y"] (by decide) rfl,
    (basicReader_get_total [("a", ["x", "y"]), ("b", [])] "c").2.1 (by decide),
    (basicReader_get_total [("a", ["x", "y"]), ("b", [])] "b").2.2.1
      ("b", []) (by decide) rfl⟩

/-- Claim C10: `Message` renders the message verbatim — it is the plain
JSON-variant response on the unmodified message bytes, the emitted body is
exactly the message (no wrapping object, no escaping, for every message
including ones containing quotes), the header map records the JSON content
type, and the status is the given code. -/
theorem message_verbatim (code : Nat) (message : Str) :
    There.Message code message = There.jsonResponse code message ∧
    ((There.Message code message) emptyRW).body = [message] ∧
    ((There.Message code message) emptyRW).headers "Content-Type"
      = "application/json" ∧
    ((There.Message code message) emptyRW).committedStatus = some code :=
  ⟨rfl, rfl, rfl, rfl⟩
